import Mathlib

/-!
Verification of the asmr-recorder capture/compose/encode pipeline.

This file gives a shallow embedding, in Lean, of the pure computational parts
of the recorder's Rust sources (src-tauri/src), and proves the testable
properties stated in the specification against that embedding:

- screen.rs      : ScreenFrame and its stride-aware pixel conversion
- compositor.rs  : VideoCompositor, PiP geometry, fast/slow compositing paths
- audio_mixer.rs : resampling, buffer mixing, soft clipping
- encoder.rs     : the video-path pixel-format conversion and the PNG fallback
- manager.rs     : the start/stop guard logic of the RecordingManager
- the bounded channel capacities wired between the stages

Conventions of the embedding:
- Bytes (u8) are modelled as Nat; byte values are only moved, never computed.
- u32/usize arithmetic is modelled on Nat; Nat subtraction coincides with
  Rust saturating_sub, and the claims proved with ordinary subtraction only
  use inputs where no underflow occurs.
- f32/f64 sample arithmetic is modelled as exact arithmetic in a linear
  ordered field (instantiated at Rat for concrete evaluation and at Real
  where the transcendental soft-clip curve is involved).
- Rust indexing expression v[i] (which panics when out of range) is modelled
  by List.getD with default 0; all theorems about such code either supply the
  bounds under which the two agree or concern accesses that are in range.
- Fallible operations return Except; channel and file side effects are
  modelled by the pure values they would transmit.
-/

namespace AsmrRecorder

/-! ## List helpers -/

/-- Length of a flatMap over an initial segment whose pieces all have the
same length. -/
theorem length_flatMap_const {α : Type} (g : Nat → List α) (L : Nat) :
    ∀ n : Nat, (∀ i, i < n → (g i).length = L) →
      ((List.range n).flatMap g).length = n * L := by
  intro n
  induction n with
  | zero => intro _; simp
  | succ k ih =>
    intro h
    rw [List.range_succ, List.flatMap_append, List.length_append,
      ih (fun i hi => h i (Nat.lt_succ_of_lt hi))]
    simp [h k (Nat.lt_succ_self k), Nat.succ_mul]

/-- A flatMap over a range only depends on the values of the generating
function below the bound. -/
theorem flatMap_range_congr {α : Type} (g₁ g₂ : Nat → List α) (n : Nat)
    (h : ∀ i, i < n → g₁ i = g₂ i) :
    (List.range n).flatMap g₁ = (List.range n).flatMap g₂ := by
  unfold List.flatMap
  rw [List.map_congr_left]
  intro a ha
  exact h a (List.mem_range.mp ha)

/-! ## screen.rs : ScreenFrame -/

/-- A captured screen frame (screen.rs lines 10-22): raw BGRA pixel data that
may include row padding, with the actual bytes per row in stride. The
timestamp (a Duration in the source) is modelled as Nat. -/
structure ScreenFrame where
  data : List Nat
  width : Nat
  height : Nat
  stride : Nat
  timestamp : Nat
deriving DecidableEq

/-- ScreenFrame::to_rgba (screen.rs lines 29-59), non-macOS branch: convert
BGRA data to RGBA row by row, honouring the stride, producing a tightly
packed output. Rust indexing self.data[offset] is modelled by getD. -/
def ScreenFrame.to_rgba (f : ScreenFrame) : List Nat :=
  (List.range f.height).flatMap (fun y =>
    let row_start := y * f.stride
    (List.range f.width).flatMap (fun x =>
      let offset := row_start + x * 4
      [f.data.getD (offset + 2) 0, f.data.getD (offset + 1) 0,
       f.data.getD offset 0, f.data.getD (offset + 3) 0]))

/-- Modelled from the spec: ScreenFrame::to_packed_bgra is called by the
compositor fast path (compositor.rs line 149) but its definition is not among
the sources at hand. Spec section 4.3 step 1 describes it: construct a
tightly-packed BGRA buffer from the input, removing any row padding. -/
def ScreenFrame.to_packed_bgra (f : ScreenFrame) : List Nat :=
  (List.range f.height).flatMap (fun y =>
    let row_start := y * f.stride
    (List.range f.width).flatMap (fun x =>
      let offset := row_start + x * 4
      [f.data.getD offset 0, f.data.getD (offset + 1) 0,
       f.data.getD (offset + 2) 0, f.data.getD (offset + 3) 0]))

/-! ## webcam.rs : WebcamFrame -/

/-- A captured webcam frame (webcam.rs lines 7-17): packed RGB data. -/
structure WebcamFrame where
  data : List Nat
  width : Nat
  height : Nat
  timestamp : Nat
deriving DecidableEq

/-- WebcamFrame::to_rgba (webcam.rs lines 20-34): add an opaque alpha
channel. -/
def WebcamFrame.to_rgba (f : WebcamFrame) : List Nat :=
  (List.range (f.width * f.height)).flatMap (fun i =>
    let offset := i * 3
    [f.data.getD offset 0, f.data.getD (offset + 1) 0,
     f.data.getD (offset + 2) 0, 255])

/-! ## recording.rs / compositor.rs : compositor -/

/-- PiP corner (recording.rs lines 14-20). -/
inductive PipPosition where
  | TopRight
  | TopLeft
  | BottomRight
  | BottomLeft
deriving DecidableEq

/-- CompositorConfig (compositor.rs lines 23-36). -/
structure CompositorConfig where
  output_width : Nat
  output_height : Nat
  include_webcam : Bool
  pip_position : PipPosition
  pip_size_percent : Nat
  pip_padding : Nat
deriving DecidableEq

/-- A composited video frame (compositor.rs lines 8-20). When is_bgra is
true the data is BGRA (fast path); otherwise RGBA. -/
structure CompositeFrame where
  data : List Nat
  width : Nat
  height : Nat
  timestamp : Nat
  is_bgra : Bool
deriving DecidableEq

/-- VideoCompositor (compositor.rs lines 52-60) with its cached PiP
geometry. -/
structure VideoCompositor where
  config : CompositorConfig
  pip_width : Nat
  pip_height : Nat
  pip_x : Nat
  pip_y : Nat
deriving DecidableEq

/-- VideoCompositor::calculate_pip_position (compositor.rs lines 89-106).
The u32 subtractions are modelled by Nat subtraction. -/
def VideoCompositor.calculate_pip_position (output_width output_height
    pip_width pip_height : Nat) (position : PipPosition) (padding : Nat) :
    Nat × Nat :=
  match position with
  | PipPosition.TopLeft => (padding, padding)
  | PipPosition.TopRight => (output_width - pip_width - padding, padding)
  | PipPosition.BottomLeft => (padding, output_height - pip_height - padding)
  | PipPosition.BottomRight =>
      (output_width - pip_width - padding, output_height - pip_height - padding)

/-- VideoCompositor::new (compositor.rs lines 64-86). -/
def VideoCompositor.new (config : CompositorConfig) : VideoCompositor :=
  let pip_width := config.output_width * config.pip_size_percent / 100
  let pip_height := pip_width * 3 / 4
  let pos := VideoCompositor.calculate_pip_position config.output_width
    config.output_height pip_width pip_height config.pip_position
    config.pip_padding
  { config := config, pip_width := pip_width, pip_height := pip_height,
    pip_x := pos.1, pip_y := pos.2 }

/-- A flat row-major RGBA image, the embedding of the image crate's
RgbaImage as used by the compositor. -/
structure RgbaImage where
  width : Nat
  height : Nat
  pix : List Nat
deriving DecidableEq

/-- RgbaImage::put_pixel: overwrite the four bytes of pixel (x, y). -/
def RgbaImage.put_pixel (img : RgbaImage) (x y : Nat) (p : List Nat) :
    RgbaImage :=
  let i := (y * img.width + x) * 4
  { img with pix := img.pix.take i ++ p ++ img.pix.drop (i + 4) }

/-- The external image crate operation the compositor calls as a black box:
imageops::resize with the triangle filter. The embedding abstracts it as a
parameter; every theorem about the compositor holds for an arbitrary
resize. -/
structure ImageOps where
  resize : RgbaImage → Nat → Nat → RgbaImage

/-- VideoCompositor::prepare_base_frame (compositor.rs lines 160-184):
convert the screen frame to RGBA and scale it to the output dimensions if
necessary. -/
def VideoCompositor.prepare_base_frame (ops : ImageOps) (c : VideoCompositor)
    (screen_frame : ScreenFrame) : RgbaImage :=
  let screen_image : RgbaImage :=
    { width := screen_frame.width, height := screen_frame.height,
      pix := screen_frame.to_rgba }
  if screen_frame.width ≠ c.config.output_width
      ∨ screen_frame.height ≠ c.config.output_height then
    ops.resize screen_image c.config.output_width c.config.output_height
  else
    screen_image

/-- VideoCompositor::overlay_webcam (compositor.rs lines 187-236): draw a
2-pixel border and blit the resized webcam frame at the PiP position. The
Rust saturating_sub is exactly Nat subtraction. -/
def VideoCompositor.overlay_webcam (ops : ImageOps) (c : VideoCompositor)
    (output : RgbaImage) (webcam_frame : WebcamFrame) : RgbaImage :=
  let webcam_image : RgbaImage :=
    { width := webcam_frame.width, height := webcam_frame.height,
      pix := webcam_frame.to_rgba }
  let scaled_webcam := ops.resize webcam_image c.pip_width c.pip_height
  let border_width := 2
  let border_color := [255, 255, 255, 200]
  let with_border :=
    (List.range (c.pip_width + border_width * 2)).foldl (fun img x =>
      (List.range (c.pip_height + border_width * 2)).foldl (fun img y =>
        let out_x := c.pip_x - border_width + x
        let out_y := c.pip_y - border_width + y
        if out_x < c.config.output_width ∧ out_y < c.config.output_height then
          if x < border_width ∨ x ≥ c.pip_width + border_width
              ∨ y < border_width ∨ y ≥ c.pip_height + border_width then
            img.put_pixel out_x out_y border_color
          else img
        else img) img) output
  (List.range c.pip_height).foldl (fun img y =>
    (List.range c.pip_width).foldl (fun img x =>
      let out_x := c.pip_x + x
      let out_y := c.pip_y + y
      if out_x < c.config.output_width ∧ out_y < c.config.output_height then
        img.put_pixel out_x out_y
          ((scaled_webcam.pix.drop ((y * scaled_webcam.width + x) * 4)).take 4)
      else img) img) with_border

/-- VideoCompositor::composite_fast_path (compositor.rs lines 147-155). -/
def VideoCompositor.composite_fast_path (_c : VideoCompositor)
    (screen_frame : ScreenFrame) : CompositeFrame :=
  { data := screen_frame.to_packed_bgra, width := screen_frame.width,
    height := screen_frame.height, timestamp := screen_frame.timestamp,
    is_bgra := true }

/-- VideoCompositor::composite (compositor.rs lines 109-140): the fast path
when no webcam overlay is requested and the dimensions already match,
otherwise the image-processing slow path. -/
def VideoCompositor.composite (ops : ImageOps) (c : VideoCompositor)
    (screen_frame : ScreenFrame) (webcam_frame : Option WebcamFrame) :
    CompositeFrame :=
  if ¬c.config.include_webcam
      ∧ screen_frame.width = c.config.output_width
      ∧ screen_frame.height = c.config.output_height then
    c.composite_fast_path screen_frame
  else
    let output := c.prepare_base_frame ops screen_frame
    let output :=
      if c.config.include_webcam then
        match webcam_frame with
        | some webcam => c.overlay_webcam ops output webcam
        | none => output
      else output
    { data := output.pix, width := c.config.output_width,
      height := c.config.output_height, timestamp := screen_frame.timestamp,
      is_bgra := false }

/-! ## audio_mixer.rs : resampling, mixing, soft clipping

Sample arithmetic (f32/f64 in the source) is modelled as exact arithmetic in
a linear ordered field with a floor, so the resampler can be evaluated at
Rat while the soft-clip curve lives at Real. -/

/-- resample (audio_mixer.rs lines 274-301): linear-interpolation resampling.
The source's checked accesses samples.get(..).copied().unwrap_or(0.0) and
unwrap_or(curr_sample) are modelled by getD with the same defaults; the two
"as usize" casts of nonnegative f64 values are modelled by Nat.floor. -/
def resample {α : Type} [LinearOrderedField α] [FloorRing α]
    (samples : List α) (from_rate to_rate : Nat) (channels : Nat) : List α :=
  if from_rate = to_rate then samples
  else
    let num_frames := samples.length / channels
    let r : α := (from_rate : α) / (to_rate : α)
    let output_frames := ⌊(num_frames : α) / r⌋₊
    (List.range output_frames).flatMap (fun i =>
      let src_pos : α := (i : α) * r
      let src_idx := ⌊src_pos⌋₊
      let frac : α := src_pos - (src_idx : α)
      (List.range channels).map (fun ch =>
        let curr_sample := samples.getD (src_idx * channels + ch) 0
        let next_sample := samples.getD ((src_idx + 1) * channels + ch)
          curr_sample
        curr_sample + (next_sample - curr_sample) * frac))

/-- convert_channels (audio_mixer.rs lines 239-271). -/
def convert_channels {α : Type} [LinearOrderedField α]
    (samples : List α) (from_channels to_channels : Nat) : List α :=
  if from_channels = to_channels then samples
  else
    let num_frames := samples.length / from_channels
    (List.range num_frames).flatMap (fun i =>
      if from_channels = 1 ∧ to_channels = 2 then
        [samples.getD i 0, samples.getD i 0]
      else if from_channels = 2 ∧ to_channels = 1 then
        [(samples.getD (i * 2) 0 + samples.getD (i * 2 + 1) 0) / 2]
      else
        (List.range to_channels).map (fun ch =>
          if ch < from_channels then samples.getD (i * from_channels + ch) 0
          else samples.getD (i * from_channels) 0))

/-- soft_clip (audio_mixer.rs lines 345-353): identity within plus/minus
one half, a scaled exponential saturation curve outside. -/
noncomputable def soft_clip (sample : ℝ) : ℝ :=
  if |sample| ≤ 0.5 then sample
  else if sample > 0 then
    0.5 + (1 - Real.exp (-2 * (sample - 0.5))) / 2
  else
    -0.5 - (1 - Real.exp (-2 * (-sample - 0.5))) / 2

/-- mix_buffers (audio_mixer.rs lines 304-342): produce samples_needed mixed
samples, reading each buffer where it is long enough and 0 elsewhere, then
drain the consumed prefix from each buffer. Returns (mixed samples, new mic
buffer, new system buffer); the source mutates the two buffers in place via
drain, which is the drop below (the "if available > 0" guards are no-ops
because dropping 0 elements changes nothing). -/
noncomputable def mix_buffers (mic_buffer system_buffer : List ℝ)
    (samples_needed : Nat) : List ℝ × List ℝ × List ℝ :=
  let mic_available := min mic_buffer.length samples_needed
  let system_available := min system_buffer.length samples_needed
  let mixed := (List.range samples_needed).map (fun i =>
    let mic_sample := if i < mic_available then mic_buffer.getD i 0 else 0
    let system_sample :=
      if i < system_available then system_buffer.getD i 0 else 0
    soft_clip (mic_sample + system_sample))
  (mixed, mic_buffer.drop mic_available, system_buffer.drop system_available)

/-! ## recording.rs : configuration types -/

/-- VideoQuality (recording.rs lines 25-30). -/
inductive VideoQuality where
  | Low
  | Medium
  | High
deriving DecidableEq

/-- VideoQuality::crf (recording.rs lines 35-41). -/
def VideoQuality.crf : VideoQuality → Nat
  | VideoQuality.Low => 28
  | VideoQuality.Medium => 23
  | VideoQuality.High => 18

/-- VideoQuality::video_bitrate (recording.rs lines 44-50), in kbps. -/
def VideoQuality.video_bitrate : VideoQuality → Nat
  | VideoQuality.Low => 2500
  | VideoQuality.Medium => 5000
  | VideoQuality.High => 10000

/-- VideoQuality::audio_bitrate (recording.rs lines 53-59), in kbps. -/
def VideoQuality.audio_bitrate : VideoQuality → Nat
  | VideoQuality.Low => 128
  | VideoQuality.Medium => 192
  | VideoQuality.High => 256

/-- OutputResolution (recording.rs lines 65-75). -/
inductive OutputResolution where
  | Hd720
  | Hd1080
  | Qhd1440
  | Uhd4k
deriving DecidableEq

/-- OutputResolution::dimensions (recording.rs lines 79-86). -/
def OutputResolution.dimensions : OutputResolution → Nat × Nat
  | OutputResolution.Hd720 => (1280, 720)
  | OutputResolution.Hd1080 => (1920, 1080)
  | OutputResolution.Qhd1440 => (2560, 1440)
  | OutputResolution.Uhd4k => (3840, 2160)

/-- RecordingConfig (recording.rs lines 102-133). Paths are modelled as
strings. -/
structure RecordingConfig where
  capture_screen : Bool
  capture_webcam : Bool
  webcam_position : PipPosition
  webcam_size : Nat
  capture_mic : Bool
  capture_system_audio : Bool
  output_path : Option String
  video_quality : VideoQuality
  frame_rate : Option Nat
  output_resolution : OutputResolution
deriving DecidableEq

/-- RecordingStatus (recording.rs lines 200-215). -/
structure RecordingStatus where
  is_recording : Bool
  duration_ms : Nat
  frame_count : Nat
  output_path : Option String
  error : Option String
deriving DecidableEq

/-! ## Bounded channel capacities

Each stage hand-off is a crossbeam bounded channel; the embedding records
the capacity each call site requests. -/

/-- Capacity of a bounded hand-off channel. -/
structure BoundedChannelSpec where
  capacity : Nat
deriving DecidableEq

/-- The screen-capture frame channel created by ScreenCapture::new
(screen.rs line 103): bounded(5). -/
def screen_frame_channel : BoundedChannelSpec := { capacity := 5 }

/-- The composite-frame channel created by
RecordingManager::start_capture_pipeline (manager.rs line 261):
bounded(120). -/
def composite_frame_channel : BoundedChannelSpec := { capacity := 120 }

/-- The microphone chunk channel created by MicrophoneCapture::new
(audio.rs line 122): bounded(30). -/
def mic_chunk_channel : BoundedChannelSpec := { capacity := 30 }

/-- The mixed-audio output channel created by AudioMixer::new
(audio_mixer.rs line 61): bounded(30). -/
def mixer_output_channel : BoundedChannelSpec := { capacity := 30 }

/-- The webcam frame channel created by WebcamCapture::new
(webcam.rs line 86): bounded(3). -/
def webcam_frame_channel : BoundedChannelSpec := { capacity := 3 }

/-! ## encoder.rs : video-path pixel conversion and fallback persistence -/

/-- Pixel formats the encoder deals in. -/
inductive Pixel where
  | RGBA
  | BGRA
  | YUV420P
deriving DecidableEq

/-- EncoderConfig (encoder.rs lines 13-28). -/
structure EncoderConfig where
  output_path : String
  width : Nat
  height : Nat
  frame_rate : Nat
  quality : VideoQuality
  audio_sample_rate : Nat
  audio_channels : Nat
deriving DecidableEq

/-- A software-scaling context, the embedding of the ffmpeg
software::scaling Context the encoder builds once at startup. -/
structure ScalerContext where
  src_format : Pixel
  src_width : Nat
  src_height : Nat
  dst_format : Pixel
  dst_width : Nat
  dst_height : Nat
deriving DecidableEq

/-- The single scaler encode_loop_ffmpeg creates before its loop
(encoder.rs lines 373-381): Context::get(Pixel::RGBA, w, h, Pixel::YUV420P,
w, h, Flags::BILINEAR). -/
def encode_loop_scaler (config : EncoderConfig) : ScalerContext :=
  { src_format := Pixel.RGBA, src_width := config.width,
    src_height := config.height, dst_format := Pixel.YUV420P,
    dst_width := config.width, dst_height := config.height }

/-- The scaler through which the video path of encode_loop_ffmpeg runs a
received composite frame (encoder.rs lines 396-427): every frame is filled
into an RGBA-format staging frame and run through the startup scaler; the
frame's is_bgra tag is never consulted. -/
def video_path_scaler (config : EncoderConfig) (_frame : CompositeFrame) :
    ScalerContext :=
  encode_loop_scaler config

/-- Left-pad the decimal representation of n with zeros to width 6: the
Rust format specifier of format!("frame_\x7b:06\x7d.png", frame_count). -/
def pad6 (n : Nat) : String :=
  let s := toString n
  String.mk (List.replicate (6 - s.length) '0') ++ s

/-- The file name encode_loop_fallback gives the PNG for a given value of
its frame_count counter (encoder.rs line 187). The counter starts at 0 and
is incremented after each save, so the k-th saved frame uses counter value
k. -/
def frame_file_name (frame_count : Nat) : String :=
  "frame_" ++ pad6 frame_count ++ ".png"

/-- The sibling directory encode_loop_fallback creates next to the output
file (encoder.rs line 174). -/
def frames_dir_name (base_name : String) : String :=
  base_name ++ "_frames"

/-- The metadata sidecar file name (encoder.rs line 220). -/
def metadata_file_name (base_name : String) : String :=
  base_name ++ "_metadata.txt"

/-- The relative paths (under the output directory) of the PNG files that
encode_loop_fallback saves for n consumed composite frames (encoder.rs
lines 180-215): counter values 0 through n-1. -/
def fallback_frame_paths (base_name : String) (n : Nat) : List String :=
  (List.range n).map (fun k =>
    frames_dir_name base_name ++ "/" ++ frame_file_name k)

/-- The metadata text encode_loop_fallback writes (encoder.rs lines
221-239), with the format! holes filled positionally. -/
def fallback_metadata (frames width height frame_rate : Nat)
    (quality base_name : String) : String :=
  "Recording Metadata\n" ++
  "==================\n" ++
  "Frames: " ++ toString frames ++ "\n" ++
  "Resolution: " ++ toString width ++ "x" ++ toString height ++ "\n" ++
  "Frame Rate: " ++ toString frame_rate ++ " fps\n" ++
  "Quality: " ++ quality ++ "\n" ++
  "\n" ++
  "To convert to video, use FFmpeg:\n" ++
  "ffmpeg -r " ++ toString frame_rate ++ " -i " ++ base_name ++
  "_frames/frame_%06d.png -c:v libx264 -pix_fmt yuv420p " ++ base_name ++
  ".mp4\n"

/-! ## manager.rs : RecordingManager lifecycle guards -/

/-- Which component handles the manager currently holds (each is an Option
in manager.rs lines 17-42; the embedding tracks presence). -/
structure ManagerComponents where
  config : Bool
  screen_capture : Bool
  webcam_capture : Bool
  mic_capture : Bool
  system_audio_capture : Bool
  audio_mixer : Bool
  compositor : Bool
  encoder : Bool
  encoder_error_receiver : Bool
deriving DecidableEq

/-- The manager state visible to the start/stop logic (manager.rs lines
17-42). -/
structure RecordingManager where
  status : RecordingStatus
  stop_signal : Bool
  compositor_running : Bool
  components : ManagerComponents
deriving DecidableEq

/-- RecordingManager::stop (manager.rs lines 358-420): refuse when not
recording; otherwise raise the stop signals, stop every component, mark the
status not recording, clear every component handle, and return the output
path recorded in the status (or an error when none is present). The
per-component stop calls and the 500 ms grace sleep touch no manager state
and are elided. -/
def RecordingManager.stop (m : RecordingManager) :
    RecordingManager × Except String String :=
  if ¬m.status.is_recording then
    (m, Except.error "No recording in progress")
  else
    let m₁ := { m with stop_signal := true, compositor_running := false }
    let output_path := m₁.status.output_path
    let m₂ := { m₁ with
      status := { m₁.status with is_recording := false },
      components :=
        { config := false, screen_capture := false, webcam_capture := false,
          mic_capture := false, system_audio_capture := false,
          audio_mixer := false, compositor := false, encoder := false,
          encoder_error_receiver := false } }
    match output_path with
    | some p => (m₂, Except.ok p)
    | none => (m₂, Except.error "No output path")

/-- RecordingManager::start (manager.rs lines 70-228): the two guard checks
performed before anything is touched. The remainder of start opens devices,
spawns threads and wires channels; it is abstracted as the init parameter,
which the guards protect. -/
def RecordingManager.start
    (init : RecordingManager → RecordingConfig →
      RecordingManager × Except String Unit)
    (m : RecordingManager) (config : RecordingConfig) :
    RecordingManager × Except String Unit :=
  if m.status.is_recording then
    (m, Except.error "Recording already in progress")
  else if ¬config.capture_screen ∧ ¬config.capture_webcam then
    (m, Except.error "At least one video source must be enabled")
  else
    init m config

/-! ## Theorems -/

/-- Helper: the double pixel flatMap of a stride-aware conversion has
exactly width * height * 4 output bytes when every pixel contributes 4. -/
theorem length_pixel_flatMap (h w : Nat) (pix : Nat → Nat → List Nat)
    (hp : ∀ y x, (pix y x).length = 4) :
    ((List.range h).flatMap (fun y =>
      (List.range w).flatMap (fun x => pix y x))).length = w * h * 4 := by
  rw [length_flatMap_const _ (w * 4) h]
  · ring
  · intro y _
    rw [length_flatMap_const _ 4 w]
    intro x _
    exact hp y x

/-- Helper: a double pixel flatMap only depends on the pixel functions on
the index rectangle. -/
theorem pixel_flatMap_congr (h w : Nat) (pix₁ pix₂ : Nat → Nat → List Nat)
    (hp : ∀ y, y < h → ∀ x, x < w → pix₁ y x = pix₂ y x) :
    (List.range h).flatMap (fun y => (List.range w).flatMap (fun x => pix₁ y x))
      = (List.range h).flatMap (fun y =>
          (List.range w).flatMap (fun x => pix₂ y x)) := by
  apply flatMap_range_congr
  intro y hy
  apply flatMap_range_congr
  intro x hx
  exact hp y hy x hx

/-- Helper: an in-row byte offset is untouched padding-wise: its residue
modulo the stride is its column offset. -/
theorem row_offset_mod (s y r : Nat) (hr : r < s) : (y * s + r) % s = r := by
  rw [Nat.mul_comm, Nat.mul_add_mod, Nat.mod_eq_of_lt hr]

/-- Helper: to_rgba reads only non-padding bytes, so it is unchanged when
the data is replaced by any list that agrees at offsets whose residue
modulo the stride is below width * 4. -/
theorem to_rgba_padding_agnostic (f : ScreenFrame)
    (hs : f.width * 4 ≤ f.stride) (d₂ : List Nat)
    (hagree : ∀ o, o % f.stride < f.width * 4 →
      f.data.getD o 0 = d₂.getD o 0) :
    f.to_rgba = ScreenFrame.to_rgba { f with data := d₂ } := by
  unfold ScreenFrame.to_rgba
  apply pixel_flatMap_congr
  intro y _ x hx
  have hread : ∀ k, k < 4 →
      f.data.getD (y * f.stride + x * 4 + k) 0
        = d₂.getD (y * f.stride + x * 4 + k) 0 := by
    intro k hk
    have hcol : x * 4 + k < f.width * 4 := by omega
    have hlt : x * 4 + k < f.stride := lt_of_lt_of_le hcol hs
    have := row_offset_mod f.stride y (x * 4 + k) hlt
    apply hagree
    rw [Nat.add_assoc, this]
    exact hcol
  simp only []
  rw [show y * f.stride + x * 4 + 2
        = y * f.stride + x * 4 + 2 from rfl]
  rw [hread 2 (by omega), hread 1 (by omega),
    show y * f.stride + x * 4 = y * f.stride + x * 4 + 0 from rfl,
    hread 0 (by omega), hread 3 (by omega)]

/-- Helper: same padding independence for the packed BGRA conversion. -/
theorem to_packed_bgra_padding_agnostic (f : ScreenFrame)
    (hs : f.width * 4 ≤ f.stride) (d₂ : List Nat)
    (hagree : ∀ o, o % f.stride < f.width * 4 →
      f.data.getD o 0 = d₂.getD o 0) :
    f.to_packed_bgra = ScreenFrame.to_packed_bgra { f with data := d₂ } := by
  unfold ScreenFrame.to_packed_bgra
  apply pixel_flatMap_congr
  intro y _ x hx
  have hread : ∀ k, k < 4 →
      f.data.getD (y * f.stride + x * 4 + k) 0
        = d₂.getD (y * f.stride + x * 4 + k) 0 := by
    intro k hk
    have hcol : x * 4 + k < f.width * 4 := by omega
    have hlt : x * 4 + k < f.stride := lt_of_lt_of_le hcol hs
    have := row_offset_mod f.stride y (x * 4 + k) hlt
    apply hagree
    rw [Nat.add_assoc, this]
    exact hcol
  simp only []
  rw [show y * f.stride + x * 4 = y * f.stride + x * 4 + 0 from rfl,
    hread 0 (by omega), hread 1 (by omega), hread 2 (by omega),
    hread 3 (by omega)]

/-- Helper: output size of to_rgba. -/
theorem to_rgba_length (f : ScreenFrame) :
    f.to_rgba.length = f.width * f.height * 4 := by
  unfold ScreenFrame.to_rgba
  rw [length_pixel_flatMap f.height f.width]
  intro y x; rfl

/-- Helper: output size of to_packed_bgra. -/
theorem to_packed_bgra_length (f : ScreenFrame) :
    f.to_packed_bgra.length = f.width * f.height * 4 := by
  unfold ScreenFrame.to_packed_bgra
  rw [length_pixel_flatMap f.height f.width]
  intro y x; rfl

/-- C8: the compositor computes the PiP rectangle as
pip_w = output_width * size_pct / 100 and pip_h = pip_w * 3 / 4 in integer
arithmetic, places it in the chosen corner with the configured padding, and
with a 1920x1080 output, 25 percent size and 20-pixel padding TopRight
yields position (1420, 20) and BottomLeft yields (20, 700). -/
theorem c8_pip_geometry :
    (∀ config : CompositorConfig,
      (VideoCompositor.new config).pip_width
          = config.output_width * config.pip_size_percent / 100
        ∧ (VideoCompositor.new config).pip_height
          = config.output_width * config.pip_size_percent / 100 * 3 / 4
        ∧ ((VideoCompositor.new config).pip_x,
            (VideoCompositor.new config).pip_y)
          = VideoCompositor.calculate_pip_position config.output_width
              config.output_height (VideoCompositor.new config).pip_width
              (VideoCompositor.new config).pip_height config.pip_position
              config.pip_padding)
    ∧ ((VideoCompositor.new
          { output_width := 1920, output_height := 1080,
            include_webcam := true, pip_position := PipPosition.TopRight,
            pip_size_percent := 25, pip_padding := 20 }).pip_x,
        (VideoCompositor.new
          { output_width := 1920, output_height := 1080,
            include_webcam := true, pip_position := PipPosition.TopRight,
            pip_size_percent := 25, pip_padding := 20 }).pip_y) = (1420, 20)
    ∧ ((VideoCompositor.new
          { output_width := 1920, output_height := 1080,
            include_webcam := true, pip_position := PipPosition.BottomLeft,
            pip_size_percent := 25, pip_padding := 20 }).pip_x,
        (VideoCompositor.new
          { output_width := 1920, output_height := 1080,
            include_webcam := true, pip_position := PipPosition.BottomLeft,
            pip_size_percent := 25, pip_padding := 20 }).pip_y) = (20, 700) := by
  refine ⟨fun config => ⟨rfl, rfl, rfl⟩, by decide, by decide⟩

/-- C3 counterexample: the claim says the video-capture-to-compositor
queue holds 120 frames, but ScreenCapture::new (screen.rs line 103)
creates it with capacity 5. -/
theorem c3_counterexample :
    screen_frame_channel.capacity = 5 ∧ ¬screen_frame_channel.capacity = 120 := by
  decide

/-- C3 (amended): the bounded hand-off queues are created with capacity 5
(video capture to compositor), 120 (compositor to encoder), 30 (audio
capture to mixer) and 30 (mixer to encoder). -/
theorem c3_channel_capacities :
    screen_frame_channel.capacity = 5
    ∧ composite_frame_channel.capacity = 120
    ∧ mic_chunk_channel.capacity = 30
    ∧ mixer_output_channel.capacity = 30 := by
  decide

/-- C9 counterexample: the fallback encoder's PNG naming starts at
frame_000000.png (the counter starts at 0), not frame_000001.png as the
claim states. -/
theorem c9_counterexample :
    fallback_frame_paths "recording" 1 = ["recording_frames/frame_000000.png"]
    ∧ ¬fallback_frame_paths "recording" 1
        = ["recording_frames/frame_000001.png"] := by
  constructor
  · rfl
  · decide

/-- C9 (amended): in the fallback encoder mode the k-th consumed composite
frame is persisted as a PNG named frame_ followed by k zero-padded to six
digits, starting at frame_000000.png, inside the sibling directory
base_frames; and the metadata sidecar base_metadata.txt describes frame
count, resolution, fps, and a shell command to assemble an MP4 (shown fully
evaluated at representative values). -/
theorem c9_fallback_persistence (base_name : String) (n k : Nat)
    (hk : k < n) :
    (fallback_frame_paths base_name n).getD k ""
      = frames_dir_name base_name ++ "/" ++ ("frame_" ++ pad6 k ++ ".png")
    ∧ (fallback_frame_paths base_name n).length = n
    ∧ metadata_file_name base_name = base_name ++ "_metadata.txt"
    ∧ fallback_metadata 60 1920 1080 30 "Medium" "recording"
      = "Recording Metadata\n==================\nFrames: 60\n" ++
        "Resolution: 1920x1080\nFrame Rate: 30 fps\nQuality: Medium\n\n" ++
        "To convert to video, use FFmpeg:\n" ++
        "ffmpeg -r 30 -i recording_frames/frame_%06d.png -c:v libx264 " ++
        "-pix_fmt yuv420p recording.mp4\n" := by
  refine ⟨?_, ?_, rfl, rfl⟩
  · unfold fallback_frame_paths
    rw [List.getD_eq_getElem?_getD, List.getElem?_map, List.getElem?_range hk]
    rfl
  · unfold fallback_frame_paths
    rw [List.length_map, List.length_range]

/-- C9 witness: the amended naming instantiated at two frames. -/
theorem c9_fallback_persistence_witness :
    (fallback_frame_paths "rec" 2).getD 1 ""
      = frames_dir_name "rec" ++ "/" ++ ("frame_" ++ pad6 1 ++ ".png")
    ∧ (fallback_frame_paths "rec" 2).length = 2
    ∧ metadata_file_name "rec" = "rec" ++ "_metadata.txt"
    ∧ fallback_metadata 60 1920 1080 30 "Medium" "recording"
      = "Recording Metadata\n==================\nFrames: 60\n" ++
        "Resolution: 1920x1080\nFrame Rate: 30 fps\nQuality: Medium\n\n" ++
        "To convert to video, use FFmpeg:\n" ++
        "ffmpeg -r 30 -i recording_frames/frame_%06d.png -c:v libx264 " ++
        "-pix_fmt yuv420p recording.mp4\n" :=
  c9_fallback_persistence "rec" 2 1 (by decide)

/-- C7: with a session in progress whose status holds an output path, the
first stop succeeds with that path and marks the session not recording, a
second stop returns the not-recording error and leaves the state unchanged,
and start during a session returns the already-recording error with the
manager state untouched. -/
theorem c7_stop_stop_start_guards (m : RecordingManager) (p : String)
    (hrec : m.status.is_recording = true)
    (hpath : m.status.output_path = some p) :
    (m.stop).2 = Except.ok p
    ∧ (m.stop).1.status.is_recording = false
    ∧ ((m.stop).1.stop).2 = Except.error "No recording in progress"
    ∧ ((m.stop).1.stop).1 = (m.stop).1
    ∧ (∀ (init : RecordingManager → RecordingConfig →
          RecordingManager × Except String Unit) (config : RecordingConfig),
        m.start init config
          = (m, Except.error "Recording already in progress")) := by
  have hstop1 : m.stop
      = ({ m with
            stop_signal := true, compositor_running := false,
            status := { m.status with is_recording := false },
            components :=
              { config := false, screen_capture := false,
                webcam_capture := false, mic_capture := false,
                system_audio_capture := false, audio_mixer := false,
                compositor := false, encoder := false,
                encoder_error_receiver := false } }, Except.ok p) := by
    unfold RecordingManager.stop
    rw [hrec]
    simp [hpath]
  have hstop2 : ∀ m' : RecordingManager, m'.status.is_recording = false →
      m'.stop = (m', Except.error "No recording in progress") := by
    intro m' h
    unfold RecordingManager.stop
    rw [h]
    simp
  refine ⟨by rw [hstop1], by rw [hstop1], ?_, ?_, ?_⟩
  · rw [hstop2 (m.stop).1 (by rw [hstop1])]
  · rw [hstop2 (m.stop).1 (by rw [hstop1])]
  · intro init config
    unfold RecordingManager.start
    rw [hrec]
    simp

/-- C7 witness: the guards evaluated on a concrete in-progress manager. -/
theorem c7_stop_stop_start_guards_witness :
    let m : RecordingManager :=
      { status := { is_recording := true, duration_ms := 0, frame_count := 0,
                    output_path := some "out.mp4", error := none },
        stop_signal := false, compositor_running := true,
        components :=
          { config := true, screen_capture := true, webcam_capture := false,
            mic_capture := true, system_audio_capture := false,
            audio_mixer := true, compositor := true, encoder := true,
            encoder_error_receiver := true } }
    (m.stop).2 = Except.ok "out.mp4"
    ∧ (m.stop).1.status.is_recording = false
    ∧ ((m.stop).1.stop).2 = Except.error "No recording in progress"
    ∧ ((m.stop).1.stop).1 = (m.stop).1
    ∧ (∀ (init : RecordingManager → RecordingConfig →
          RecordingManager × Except String Unit) (config : RecordingConfig),
        m.start init config
          = (m, Except.error "Recording already in progress")) :=
  c7_stop_stop_start_guards _ "out.mp4" rfl rfl

/-- C2 (code evaluated at the failing input): a BGRA-tagged composite
frame, exactly as the compositor fast path produces it, is still run
through the encoder's RGBA-to-YUV420P scaler: the video path never selects
a BGRA-source converter typecheck. -/
theorem c2_bgra_frame_gets_rgba_scaler :
    (VideoCompositor.composite
        { resize := fun img _ _ => img }
        (VideoCompositor.new
          { output_width := 2, output_height := 2, include_webcam := false,
            pip_position := PipPosition.TopRight, pip_size_percent := 25,
            pip_padding := 20 })
        { data := [0, 255, 0, 255, 255, 0, 0, 255,
                   0, 0, 255, 255, 255, 255, 255, 255],
          width := 2, height := 2, stride := 8, timestamp := 0 }
        none).is_bgra = true
    ∧ (video_path_scaler
        { output_path := "out.mp4", width := 2, height := 2,
          frame_rate := 30, quality := VideoQuality.Medium,
          audio_sample_rate := 48000, audio_channels := 2 }
        (VideoCompositor.composite
          { resize := fun img _ _ => img }
          (VideoCompositor.new
            { output_width := 2, output_height := 2, include_webcam := false,
              pip_position := PipPosition.TopRight, pip_size_percent := 25,
              pip_padding := 20 })
          { data := [0, 255, 0, 255, 255, 0, 0, 255,
                     0, 0, 255, 255, 255, 255, 255, 255],
            width := 2, height := 2, stride := 8, timestamp := 0 }
          none)).src_format = Pixel.RGBA
    ∧ ¬Pixel.RGBA = Pixel.BGRA := by
  refine ⟨by decide, rfl, by decide⟩

/-- The 2x2 example frame of the spec's stride-correctness property: two
BGRA pixels per row (green, blue / red, white), 16-byte stride, 8 zero
padding bytes per row. -/
def example_screen_frame : ScreenFrame :=
  { data := [0, 255, 0, 255, 255, 0, 0, 255, 0, 0, 0, 0, 0, 0, 0, 0,
             0, 0, 255, 255, 255, 255, 255, 255, 0, 0, 0, 0, 0, 0, 0, 0],
    width := 2, height := 2, stride := 16, timestamp := 0 }

/-- C6: for every ScreenFrame with stride at least width * 4 and data at
least height * stride bytes, to_rgba returns exactly width * height * 4
bytes, depends only on the non-padding bytes of each row, and the 2x2
padded example (green, blue, red, white in BGRA) converts to the expected
RGBA bytes. -/
theorem c6_to_rgba_stride (f : ScreenFrame)
    (hs : f.width * 4 ≤ f.stride)
    (hd : f.height * f.stride ≤ f.data.length) :
    f.to_rgba.length = f.width * f.height * 4
    ∧ (∀ d₂ : List Nat,
        (∀ o, o % f.stride < f.width * 4 → f.data.getD o 0 = d₂.getD o 0) →
        f.to_rgba = ScreenFrame.to_rgba { f with data := d₂ })
    ∧ example_screen_frame.to_rgba
      = [0, 255, 0, 255, 0, 0, 255, 255,
         255, 0, 0, 255, 255, 255, 255, 255] :=
  ⟨to_rgba_length f,
   fun d₂ h => to_rgba_padding_agnostic f hs d₂ h,
   by decide⟩

/-- C6 witness: the stride theorem instantiated at the 2x2 example frame. -/
theorem c6_to_rgba_stride_witness :
    example_screen_frame.to_rgba.length
        = example_screen_frame.width * example_screen_frame.height * 4
    ∧ (∀ d₂ : List Nat,
        (∀ o, o % example_screen_frame.stride
              < example_screen_frame.width * 4 →
          example_screen_frame.data.getD o 0 = d₂.getD o 0) →
        example_screen_frame.to_rgba
          = ScreenFrame.to_rgba { example_screen_frame with data := d₂ })
    ∧ example_screen_frame.to_rgba
      = [0, 255, 0, 255, 0, 0, 255, 255,
         255, 0, 0, 255, 255, 255, 255, 255] :=
  c6_to_rgba_stride example_screen_frame (by decide) (by decide)

/-- C1: when the compositor's webcam overlay is disabled and the screen
frame's dimensions equal the configured output dimensions, composite takes
the fast path: the result is tagged BGRA, carries the tightly packed BGRA
buffer of exactly width * height * 4 bytes, and that buffer reads no row
padding bytes. The packing function itself is modelled from the spec, its
caller is compositor.rs lines 109-155. -/
theorem c1_fast_path_bgra (ops : ImageOps) (c : VideoCompositor)
    (screen : ScreenFrame) (webcam : Option WebcamFrame)
    (hw : c.config.include_webcam = false)
    (h1 : screen.width = c.config.output_width)
    (h2 : screen.height = c.config.output_height) :
    c.composite ops screen webcam
      = { data := screen.to_packed_bgra, width := screen.width,
          height := screen.height, timestamp := screen.timestamp,
          is_bgra := true }
    ∧ screen.to_packed_bgra.length = screen.width * screen.height * 4
    ∧ (screen.width * 4 ≤ screen.stride →
        ∀ d₂ : List Nat,
          (∀ o, o % screen.stride < screen.width * 4 →
            screen.data.getD o 0 = d₂.getD o 0) →
          screen.to_packed_bgra
            = ScreenFrame.to_packed_bgra { screen with data := d₂ }) := by
  refine ⟨?_, to_packed_bgra_length screen,
    fun hs d₂ h => to_packed_bgra_padding_agnostic screen hs d₂ h⟩
  unfold VideoCompositor.composite VideoCompositor.composite_fast_path
  rw [if_pos]
  exact ⟨by rw [hw]; exact Bool.false_ne_true, h1, h2⟩

/-- C1 witness: the fast path evaluated on a concrete matching frame. -/
theorem c1_fast_path_bgra_witness :
    (VideoCompositor.new
      { output_width := 2, output_height := 2, include_webcam := false,
        pip_position := PipPosition.TopRight, pip_size_percent := 25,
        pip_padding := 20 }).composite
      { resize := fun img _ _ => img }
      { data := [0, 255, 0, 255, 255, 0, 0, 255,
                 0, 0, 255, 255, 255, 255, 255, 255],
        width := 2, height := 2, stride := 8, timestamp := 0 }
      none
      = { data := ScreenFrame.to_packed_bgra
            { data := [0, 255, 0, 255, 255, 0, 0, 255,
                       0, 0, 255, 255, 255, 255, 255, 255],
              width := 2, height := 2, stride := 8, timestamp := 0 },
          width := 2, height := 2, timestamp := 0, is_bgra := true }
    ∧ (ScreenFrame.to_packed_bgra
        { data := [0, 255, 0, 255, 255, 0, 0, 255,
                   0, 0, 255, 255, 255, 255, 255, 255],
          width := 2, height := 2, stride := 8, timestamp := 0 }).length
      = 2 * 2 * 4
    ∧ (2 * 4 ≤ 8 →
        ∀ d₂ : List Nat,
          (∀ o, o % 8 < 2 * 4 →
            List.getD [0, 255, 0, 255, 255, 0, 0, 255,
                       0, 0, 255, 255, 255, 255, 255, 255] o 0
              = d₂.getD o 0) →
          ScreenFrame.to_packed_bgra
              { data := [0, 255, 0, 255, 255, 0, 0, 255,
                         0, 0, 255, 255, 255, 255, 255, 255],
                width := 2, height := 2, stride := 8, timestamp := 0 }
            = ScreenFrame.to_packed_bgra
              { data := d₂, width := 2, height := 2, stride := 8,
                timestamp := 0 }) :=
  c1_fast_path_bgra { resize := fun img _ _ => img }
    (VideoCompositor.new
      { output_width := 2, output_height := 2, include_webcam := false,
        pip_position := PipPosition.TopRight, pip_size_percent := 25,
        pip_padding := 20 })
    { data := [0, 255, 0, 255, 255, 0, 0, 255,
               0, 0, 255, 255, 255, 255, 255, 255],
      width := 2, height := 2, stride := 8, timestamp := 0 }
    none rfl rfl rfl

/-- C10: with at least one channel and positive rates, resample is total
over its checked accesses (embedded with their unwrap_or defaults), returns
the input unchanged when the rates are equal, and otherwise produces
exactly floor((len / channels) * to_rate / from_rate) * channels samples. -/
theorem c10_resample_safe {α : Type} [LinearOrderedField α] [FloorRing α]
    (samples : List α) (from_rate to_rate channels : Nat)
    (hch : 1 ≤ channels) (hf : 0 < from_rate) (ht : 0 < to_rate) :
    (from_rate = to_rate →
      resample samples from_rate to_rate channels = samples)
    ∧ (¬from_rate = to_rate →
        (resample samples from_rate to_rate channels).length
          = samples.length / channels * to_rate / from_rate * channels) := by
  constructor
  · intro h
    simp [resample, h]
  · intro h
    have hf0 : ((from_rate : α)) ≠ 0 := Nat.cast_ne_zero.mpr hf.ne'
    have ht0 : ((to_rate : α)) ≠ 0 := Nat.cast_ne_zero.mpr ht.ne'
    have hfloor :
        ⌊(((samples.length / channels : Nat) : α))
            / ((from_rate : α) / (to_rate : α))⌋₊
          = samples.length / channels * to_rate / from_rate := by
      rw [div_div_eq_mul_div]
      rw [show ((samples.length / channels : Nat) : α) * (to_rate : α)
            = (((samples.length / channels * to_rate : Nat)) : α) by
          push_cast; ring]
      rw [Nat.floor_div_nat, Nat.floor_natCast]
    simp only [resample, if_neg h]
    rw [length_flatMap_const _ channels]
    · rw [hfloor]
    · intro i _
      rw [List.length_map, List.length_range]

/-- C10 witness: resampling two mono samples from 2 Hz to 1 Hz yields one
sample, and equal rates return the input unchanged. -/
theorem c10_resample_safe_witness :
    ((2 : Nat) = 1 → resample ([4, 8] : List ℚ) 2 1 1 = [4, 8])
    ∧ (¬(2 : Nat) = 1 →
        (resample ([4, 8] : List ℚ) 2 1 1).length
          = [4, 8].length / 1 * 1 / 2 * 1) :=
  c10_resample_safe ([4, 8] : List ℚ) 2 1 1 (by decide) (by decide) (by decide)

/-- C4: whenever either internal buffer holds at least block-size samples,
one mixed block of exactly block-size samples is produced, whose sample i
is the soft-clipped sum of the two source samples with a missing sample
read as zero, and each internal buffer is afterwards drained by exactly
min(its length, block size), keeping the remainder. -/
theorem c4_mix_block (mic_buffer system_buffer : List ℝ)
    (samples_needed : Nat)
    (hready : samples_needed ≤ mic_buffer.length
      ∨ samples_needed ≤ system_buffer.length) :
    (mix_buffers mic_buffer system_buffer samples_needed).1.length
        = samples_needed
    ∧ (∀ i, i < samples_needed →
        (mix_buffers mic_buffer system_buffer samples_needed).1.getD i 0
          = soft_clip
              ((if i < mic_buffer.length then mic_buffer.getD i 0 else 0)
                + (if i < system_buffer.length then system_buffer.getD i 0
                    else 0)))
    ∧ (mix_buffers mic_buffer system_buffer samples_needed).2.1
        = mic_buffer.drop (min mic_buffer.length samples_needed)
    ∧ (mix_buffers mic_buffer system_buffer samples_needed).2.2
        = system_buffer.drop (min system_buffer.length samples_needed) := by
  refine ⟨?_, ?_, rfl, rfl⟩
  · simp [mix_buffers]
  · intro i hi
    show (List.map _ (List.range samples_needed)).getD i 0 = _
    rw [List.getD_eq_getElem?_getD, List.getElem?_map,
      List.getElem?_range hi]
    simp [Nat.lt_min, hi]

/-- C4 witness: one block mixed from a one-sample mic buffer and an empty
system buffer. -/
theorem c4_mix_block_witness :
    (mix_buffers [0.25] [] 1).1.length = 1
    ∧ (∀ i, i < 1 →
        (mix_buffers [0.25] [] 1).1.getD i 0
          = soft_clip
              ((if i < List.length [(0.25 : ℝ)] then
                  List.getD [(0.25 : ℝ)] i 0 else 0)
                + (if i < List.length ([] : List ℝ) then
                    List.getD ([] : List ℝ) i 0 else 0)))
    ∧ (mix_buffers [0.25] [] 1).2.1
        = List.drop (min (List.length [(0.25 : ℝ)]) 1) [(0.25 : ℝ)]
    ∧ (mix_buffers [0.25] [] 1).2.2
        = List.drop (min (List.length ([] : List ℝ)) 1) ([] : List ℝ) :=
  c4_mix_block [0.25] [] 1 (Or.inl (by norm_num))

/-- Helper: soft_clip is the identity on the linear region. -/
theorem soft_clip_id (x : ℝ) (h : |x| ≤ 0.5) : soft_clip x = x := by
  unfold soft_clip
  rw [if_pos h]

/-- Helper: the positive saturation branch of soft_clip. -/
theorem soft_clip_pos_branch (x : ℝ) (h : 0.5 < x) :
    soft_clip x = 0.5 + (1 - Real.exp (-2 * (x - 0.5))) / 2 := by
  unfold soft_clip
  rw [if_neg, if_pos (by linarith)]
  intro habs
  have := abs_le.mp habs
  linarith [this.2]

/-- Helper: the negative saturation branch of soft_clip is the mirrored
positive branch. -/
theorem soft_clip_neg_branch (x : ℝ) (h : x < -0.5) :
    soft_clip x = -(0.5 + (1 - Real.exp (-2 * (-x - 0.5))) / 2) := by
  unfold soft_clip
  rw [if_neg, if_neg (by linarith)]
  · ring
  · intro habs
    have := abs_le.mp habs
    linarith [this.1]

/-- Helper: soft_clip output stays strictly inside (-1, 1). -/
theorem soft_clip_range_aux (x : ℝ) : -1 < soft_clip x ∧ soft_clip x < 1 := by
  rcases le_or_lt |x| 0.5 with h | h
  · rw [soft_clip_id x h]
    have := abs_le.mp h
    constructor <;> linarith [this.1, this.2]
  · rcases lt_or_le 0 x with hx | hx
    · have hx5 : 0.5 < x := by
        rcases abs_cases x with ⟨he, _⟩ | ⟨_, hneg⟩
        · linarith [he ▸ h]
        · linarith
      rw [soft_clip_pos_branch x hx5]
      have he1 : Real.exp (-2 * (x - 0.5)) < 1 :=
        Real.exp_lt_one_iff.mpr (by linarith)
      have he0 : 0 < Real.exp (-2 * (x - 0.5)) := Real.exp_pos _
      constructor <;> linarith
    · have hx5 : x < -0.5 := by
        rcases abs_cases x with ⟨_, hpos⟩ | ⟨he, _⟩
        · linarith
        · linarith [he ▸ h]
      rw [soft_clip_neg_branch x hx5]
      have he1 : Real.exp (-2 * (-x - 0.5)) < 1 :=
        Real.exp_lt_one_iff.mpr (by linarith)
      have he0 : 0 < Real.exp (-2 * (-x - 0.5)) := Real.exp_pos _
      constructor <;> linarith

/-- Helper: soft_clip is continuous where the identity meets the positive
saturation curve. -/
theorem soft_clip_continuousAt_half : ContinuousAt soft_clip 0.5 := by
  have hg : Continuous (fun x : ℝ =>
      if x ≤ 0.5 then x else 0.5 + (1 - Real.exp (-2 * (x - 0.5))) / 2) := by
    apply Continuous.if_le continuous_id ?_ continuous_id continuous_const
    · intro a ha
      have haa : a = 0.5 := ha
      subst haa
      norm_num [Real.exp_zero]
    · fun_prop
  apply hg.continuousAt.congr
  apply Filter.eventuallyEq_of_mem
    (Ioo_mem_nhds (by norm_num) (by norm_num)
      : Set.Ioo (0 : ℝ) 1 ∈ nhds 0.5)
  intro x hx
  obtain ⟨hx0, hx1⟩ := hx
  by_cases hle : x ≤ 0.5
  · simp only [hle, if_true]
    rw [soft_clip_id x (abs_le.mpr ⟨by linarith, hle⟩)]
  · simp only [hle, if_false]
    rw [soft_clip_pos_branch x (by linarith)]

/-- Helper: soft_clip is continuous where the identity meets the negative
saturation curve. -/
theorem soft_clip_continuousAt_neg_half : ContinuousAt soft_clip (-0.5) := by
  have hg : Continuous (fun x : ℝ =>
      if x ≤ -0.5 then -(0.5 + (1 - Real.exp (-2 * (-x - 0.5))) / 2)
      else x) := by
    apply Continuous.if_le ?_ continuous_id continuous_id continuous_const
    · intro a ha
      have haa : a = -0.5 := ha
      subst haa
      norm_num [Real.exp_zero]
    · fun_prop
  apply hg.continuousAt.congr
  apply Filter.eventuallyEq_of_mem
    (Ioo_mem_nhds (by norm_num) (by norm_num)
      : Set.Ioo (-1 : ℝ) 0 ∈ nhds (-0.5))
  intro x hx
  obtain ⟨hx0, hx1⟩ := hx
  by_cases hle : x ≤ -0.5
  · simp only [hle, if_true]
    rcases lt_or_eq_of_le hle with hlt | heq
    · rw [soft_clip_neg_branch x hlt]
    · rw [heq]
      rw [soft_clip_id (-0.5) (by rw [abs_of_neg] <;> norm_num)]
      norm_num
  · simp only [hle, if_false]
    rw [soft_clip_id x (abs_le.mpr ⟨by linarith, by linarith⟩)]

/-- C5: soft_clip is the identity for absolute value at most one half,
follows the stated exponential saturation formula above one half and its
mirror below minus one half, always outputs a value strictly inside
(-1, 1), and is continuous at both branch boundaries. -/
theorem c5_soft_clip_properties :
    (∀ x : ℝ, |x| ≤ 0.5 → soft_clip x = x)
    ∧ (∀ x : ℝ, 0.5 < x →
        soft_clip x = 0.5 + (1 - Real.exp (-2 * (x - 0.5))) / 2)
    ∧ (∀ x : ℝ, x < -0.5 →
        soft_clip x = -(0.5 + (1 - Real.exp (-2 * (-x - 0.5))) / 2))
    ∧ (∀ x : ℝ, -1 < soft_clip x ∧ soft_clip x < 1)
    ∧ ContinuousAt soft_clip 0.5
    ∧ ContinuousAt soft_clip (-0.5) :=
  ⟨soft_clip_id, soft_clip_pos_branch, soft_clip_neg_branch,
   soft_clip_range_aux, soft_clip_continuousAt_half,
   soft_clip_continuousAt_neg_half⟩

/-- C5 witness: the branch formulas and range evaluated at 0.3, 2, -2. -/
theorem c5_soft_clip_properties_witness :
    soft_clip 0.3 = 0.3
    ∧ soft_clip 2 = 0.5 + (1 - Real.exp (-2 * (2 - 0.5))) / 2
    ∧ soft_clip (-2) = -(0.5 + (1 - Real.exp (-2 * (-(-2) - 0.5))) / 2)
    ∧ (-1 < soft_clip 2 ∧ soft_clip 2 < 1) :=
  ⟨c5_soft_clip_properties.1 0.3 (by rw [abs_le]; norm_num),
   c5_soft_clip_properties.2.1 2 (by norm_num),
   c5_soft_clip_properties.2.2.1 (-2) (by norm_num),
   c5_soft_clip_properties.2.2.2.1 2⟩

end AsmrRecorder
